import Mathlib

/-!
Shallow embedding of the slumber test utilities (`src/test_util.rs`) and of the
Template Resolution & Chain Execution Engine they exercise. Pure Rust functions
become Lean functions; the shared recursion counter becomes explicit state
passing; panics and fallible operations become `Except`/`Option`.
-/

namespace Slumber

/-- Recipe identifiers (`RecipeId` newtype over `String` in the source). -/
abbrev RecipeId := String

/-- Profile identifiers (`ProfileId` newtype over `String`). -/
abbrev ProfileId := String

/-- Chain identifiers. -/
abbrev ChainId := String

/-- Trigger policy for a `Request` chain source (spec §3 `TriggerPolicy`:
`Always`, `Never`, `NoHistory`, `Expire(duration)`; durations in abstract
time units). -/
inductive TriggerPolicy where
  | always
  | never
  | noHistory
  | expire (duration : Nat)
deriving DecidableEq, Repr

/-- The `Default::default()` used by `Chain::factory` for the trigger field. -/
def TriggerPolicy.default : TriggerPolicy := .never

/-- Which part of a response a `Request` chain extracts (spec §3: "section =
which part of the eventual response to extract: status, a header, or body"). -/
inductive RequestSection where
  | body
  | header (name : String)
  | status
deriving DecidableEq, Repr

/-- The `Default::default()` used by `Chain::factory` for the section field. -/
def RequestSection.default : RequestSection := .body

/-- Content-type hint governing how a selector parses raw bytes (spec §3). -/
inductive ContentType where
  | json
deriving DecidableEq, Repr

/-- Trim policy applied to a chain's resolved textual value (spec §3:
none / leading / trailing / both). `end` is a Lean keyword, hence `end'`. -/
inductive ChainOutputTrim where
  | none
  | start
  | end'
  | both
deriving DecidableEq, Repr

/-- Default trim policy (`ChainOutputTrim::default()` in the source). -/
def ChainOutputTrim.default : ChainOutputTrim := .none

/-- Chain value source (spec §3 `ChainSource` tagged variants). `section` is a
Lean keyword, hence the binder name `section'`. -/
inductive ChainSource where
  | request (recipe : RecipeId) (trigger : TriggerPolicy) (section' : RequestSection)
  | command (program : String) (arguments : List String)
  | file (path : String)
  | prompt (label : String) (default : Option String)
  | environment (variable' : String)
deriving DecidableEq, Repr

/-- A chain definition (spec §3; field set mirrors `Chain::factory` in
`src/test_util.rs`). -/
structure Chain where
  id : ChainId
  source : ChainSource
  sensitive : Bool
  selector : Option String
  content_type : Option ContentType
  trim : ChainOutputTrim
deriving DecidableEq, Repr

/-- `impl Factory for Chain` (`src/test_util.rs` lines 78-93). -/
def Chain.factory : Chain :=
  { id := "chain1"
    source := .request "recipe1" TriggerPolicy.default RequestSection.default
    sensitive := false
    selector := none
    content_type := none
    trim := ChainOutputTrim.default }

/-- A recipe (field set mirrors `Recipe::factory` in `src/test_util.rs`). -/
structure Recipe where
  id : RecipeId
  name : Option String
  method : String
  url : String
  body : Option String
  authentication : Option String
  query : List (String × String)
  headers : List (String × String)
deriving DecidableEq, Repr

/-- `impl Factory for Recipe` (`src/test_util.rs` lines 63-76). -/
def Recipe.factory : Recipe :=
  { id := "recipe1"
    name := Option.none
    method := "GET"
    url := "http://localhost/url"
    body := Option.none
    authentication := Option.none
    query := []
    headers := [] }

/-- An HTTP request as built by the engine. `RequestId::new()` draws a fresh
random UUID, modelled as an explicit `Nat` parameter to the factory. Field set
mirrors `Request::factory` in `src/test_util.rs`. -/
structure RequestM where
  id : Nat
  profile_id : Option ProfileId
  recipe_id : RecipeId
  method : String
  url : String
  headers : List (String × String)
  body : Option String
deriving DecidableEq, Repr

/-- `impl Factory for Request` (`src/test_util.rs` lines 95-107); the freshly
generated `RequestId` is the explicit parameter `id`. -/
def RequestM.factory (id : Nat) : RequestM :=
  { id := id
    profile_id := Option.none
    recipe_id := "recipe1"
    method := "GET"
    url := "http://localhost/url"
    headers := []
    body := Option.none }

/-- An HTTP response (field set mirrors `Response::factory`). -/
structure ResponseM where
  status : Nat
  headers : List (String × String)
  body : String
deriving DecidableEq, Repr

/-- `impl Factory for Response` (`src/test_util.rs` lines 109-117). -/
def ResponseM.factory : ResponseM :=
  { status := 200, headers := [], body := "" }

/-- A request/response record persisted to history (spec §3 `RequestRecord`).
Timestamps are abstract clock readings (`Nat`). -/
structure RequestRecordM where
  id : Nat
  request : RequestM
  response : ResponseM
  start_time : Nat
  end_time : Nat
deriving DecidableEq, Repr

/-- `impl Factory for RequestRecord` (`src/test_util.rs` lines 119-131). The
two successive `Utc::now()` readings are the explicit parameters `t1` and
`t2`; the wall clock is modelled as monotone across the two successive calls,
which the caller expresses as `t1 ≤ t2`. -/
def RequestRecordM.factory (id t1 t2 : Nat) : RequestRecordM :=
  let request := RequestM.factory id
  let response := ResponseM.factory
  { id := request.id
    request := request
    response := response
    start_time := t1
    end_time := t2 }

/-- A prompt delivered to a `Prompter`: label, optional default, and (modelled
implicitly by the return value of `TestPrompter.prompt`) a single-shot
response channel. -/
structure PromptM where
  label : String
  default : Option String
deriving DecidableEq, Repr

/-- `TestPrompter` (`src/test_util.rs` lines 211-222): returns a static value
when prompted, or no value if none is given. `Default` leaves `value` unset. -/
structure TestPrompter where
  value : Option String
deriving DecidableEq, Repr

/-- `impl Default for TestPrompter` (derived in the source). -/
def TestPrompter.default : TestPrompter := { value := Option.none }

/-- `impl Prompter for TestPrompter` (`src/test_util.rs` lines 224-233).
The returned list is the sequence of responses sent on the prompt's
single-shot channel: if a preconfigured value was given respond with it,
otherwise respond with the prompt's default, otherwise do not respond. -/
def TestPrompter.prompt (self : TestPrompter) (p : PromptM) : List String :=
  match self.value with
  | some value => [value]
  | Option.none =>
    match p.default with
    | some d => [d]
    | Option.none => []

/-- Modelled from the spec: the Prompt source resolver's view of the
single-shot response channel (spec §4.4, §6 "the frontend responds exactly
once on that channel or signals no answer"; "In a non-interactive context with
no default, fails with `ChainError::PromptUnavailable`"). The concrete Prompt
resolver is not under `src/`. -/
inductive TriggerError where
  | NoHistory
deriving DecidableEq, Repr

/-- Error taxonomy for chain resolution (spec §7). -/
inductive ChainError where
  | NotFound (id : ChainId)
  | RecursionLimit
  | SelectorError
  | CommandFailed
  | Io
  | PromptUnavailable
  | EnvUnset
  | Trigger (e : TriggerError)
deriving DecidableEq, Repr

/-- Modelled from the spec: the Prompt resolver awaits the single-shot
channel; no response at all is `ChainError::PromptUnavailable` (spec §4.4).
The concrete Prompt resolver is not under `src/`. -/
def promptChannelResult (responses : List String) : Except ChainError String :=
  match responses with
  | [] => .error .PromptUnavailable
  | v :: _ => .ok v

/-- `MessageQueue::try_recv` behaviour of the underlying unbounded mpsc
receiver: the buffered messages form a FIFO list; `try_recv` pops the head or
reports the queue empty. -/
def MessageQueue.tryRecv {α : Type} (q : List α) : Option (α × List α) :=
  match q with
  | [] => Option.none
  | m :: rest => some (m, rest)

/-- `MessageQueue::clear` (`src/test_util.rs` lines 205-207): loop `try_recv`
while it succeeds, dropping every buffered message. -/
def MessageQueue.clear {α : Type} : List α → List α
  | [] => []
  | _ :: rest => MessageQueue.clear rest

/-- `MessageQueue::pop_now` (`src/test_util.rs` lines 194-197): pop the next
message, panicking with "Message queue empty" if none is buffered. The panic
is modelled as `Except.error` carrying the panic message. -/
def MessageQueue.pop_now {α : Type} (q : List α) : Except String (α × List α) :=
  match MessageQueue.tryRecv q with
  | some r => .ok r
  | Option.none => .error "Message queue empty"

/-- Modelled from the spec: a node of the `RecipeTree` (spec §3: "recursive
structure of `Folder{ordered id→node mapping}` and leaf `Recipe` nodes"). The
concrete `RecipeNode` type is not under `src/`; a node's id is the key under
which it appears in its parent mapping. -/
inductive RecipeNode where
  | recipe (r : Recipe)
  | folder (children : List (RecipeId × RecipeNode))
deriving Repr

mutual

/-- Every id occurring in one node of the tree (the keys of a folder's
mapping, recursively). -/
def nodeIds : RecipeNode → List RecipeId
  | .recipe _ => []
  | .folder children => treeIds children

/-- Every id occurring in an ordered id→node mapping, at every depth. -/
def treeIds : List (RecipeId × RecipeNode) → List RecipeId
  | [] => []
  | (id, n) :: rest => id :: (nodeIds n ++ treeIds rest)

end

/-- Duplicate detection over the collected id list. -/
def hasDuplicate : List RecipeId → Bool
  | [] => false
  | id :: rest => rest.contains id || hasDuplicate rest

/-- Modelled from the spec: the `RecipeTree` (spec §3), whose invariant is
that every id is unique across the entire tree. The concrete type is not
under `src/`. -/
structure RecipeTree where
  tree : List (RecipeId × RecipeNode)
deriving Repr

/-- Modelled from the spec: `RecipeTree::new` — "construction from a flat
mapping must fail (not silently overwrite) on any duplicate" (spec §3). The
concrete constructor is not under `src/`; its error is modelled as the panic
message used by the `From` impl in `src/test_util.rs`. -/
def RecipeTree.new (tree : List (RecipeId × RecipeNode)) : Except String RecipeTree :=
  if hasDuplicate (treeIds tree) then .error "Duplicate recipe ID"
  else .ok { tree := tree }

/-- `impl From<IndexMap<RecipeId, Recipe>> for RecipeTree`
(`src/test_util.rs` lines 242-250): wrap each recipe as a leaf node and call
`RecipeTree::new`, panicking (modelled as `none`) on a duplicate id. -/
def recipeTreeFrom (value : List (RecipeId × Recipe)) : Option RecipeTree :=
  match RecipeTree.new (value.map fun p => (p.1, RecipeNode.recipe p.2)) with
  | .ok t => some t
  | .error _ => Option.none

/-- A profile (field set mirrors `Profile::factory`). -/
structure Profile where
  id : ProfileId
  name : Option String
  data : List (String × String)
deriving DecidableEq, Repr

/-- `impl Factory for Profile` (`src/test_util.rs` lines 43-51). -/
def Profile.factory : Profile :=
  { id := "profile1", name := Option.none, data := [] }

/-- The collection: profiles, the recipe tree and chain definitions
(spec §6). -/
structure Collection where
  profiles : List (ProfileId × Profile)
  recipes : List (RecipeId × RecipeNode)
  chains : List Chain

/-- `Collection::default()`: everything empty. -/
def Collection.default : Collection :=
  { profiles := [], recipes := [], chains := [] }

/-- `impl Factory for Collection` (`src/test_util.rs` lines 37-41). -/
def Collection.factory : Collection := Collection.default

/-- The render-scoped state bundle (spec §3 `TemplateContext`; field set
mirrors `TemplateContext::factory` in `src/test_util.rs`). The HTTP engine
and database handles are abstracted to placeholders. -/
structure TemplateContext where
  collection : Collection
  selected_profile : Option ProfileId
  http_engine : Option Unit
  database : Unit
  overrides : List (String × String)
  prompter : TestPrompter
  recursion_count : Nat

/-- `impl Factory for TemplateContext` (`src/test_util.rs` lines 133-145):
in particular `recursion_count: 0.into()`. -/
def TemplateContext.factory : TemplateContext :=
  { collection := Collection.default
    selected_profile := Option.none
    http_engine := Option.none
    database := ()
    overrides := []
    prompter := TestPrompter.default
    recursion_count := 0 }

/-- A parse error naming the offending position (spec §4.1). -/
inductive ParseError where
  | unterminatedKey (pos : Nat)
  | invalidKey (pos : Nat)
deriving DecidableEq, Repr

/-- A template segment: a literal text span or a chain-key reference
(spec §3). -/
inductive TemplateSegment where
  | literal (text : List Char)
  | key (k : List Char)
deriving DecidableEq, Repr

/-- A parsed template: ordered sequence of segments (spec §3). -/
structure Template where
  segments : List TemplateSegment
deriving DecidableEq, Repr

/-- Characters allowed in a chain-key identifier. The exact grammar is the
spec's open question (§9); this model fixes alphanumerics, underscore and
hyphen. -/
def isKeyChar (c : Char) : Bool := c.isAlphanum || c == '_' || c == '-'

/-- Prepend the accumulated literal span (if nonempty) to a segment list. -/
def flushLiteral (acc : List Char) (segs : List TemplateSegment) : List TemplateSegment :=
  if acc.isEmpty then segs else .literal acc.reverse :: segs

mutual

/-- Modelled from the spec: the Template Parser's literal-scanning state
(spec §4.1). The concrete parser is not under `src/`; marker syntax is the
doubled-brace grammar left open by spec §9. `acc` holds the current literal
span reversed, `pos` the current position. -/
def scanLiteral (pos : Nat) (acc : List Char) :
    List Char → Except ParseError (List TemplateSegment)
  | '{' :: '{' :: rest => do
    let segs ← scanKey (pos + 2) [] rest
    pure (flushLiteral acc segs)
  | c :: rest => scanLiteral (pos + 1) (c :: acc) rest
  | [] => .ok (flushLiteral acc [])

/-- Modelled from the spec: the Template Parser's key-scanning state, which
rejects unterminated or malformed key markers and invalid key identifiers
(spec §4.1). -/
def scanKey (pos : Nat) (acc : List Char) :
    List Char → Except ParseError (List TemplateSegment)
  | '}' :: '}' :: rest =>
    if acc.isEmpty then .error (.invalidKey pos)
    else do
      let segs ← scanLiteral (pos + 2) [] rest
      pure (.key acc.reverse :: segs)
  | c :: rest =>
    if isKeyChar c then scanKey (pos + 1) (c :: acc) rest
    else .error (.invalidKey pos)
  | [] => .error (.unterminatedKey pos)

end

/-- Modelled from the spec: `parse(raw: string) -> Template | ParseError`
(spec §4.1). The concrete parser is not under `src/`. -/
def Template.parse (s : String) : Except ParseError Template :=
  (scanLiteral 0 [] s.data).map Template.mk

/-- `impl From<&str> for Template` (`src/test_util.rs` lines 258-262):
`try_into().unwrap()`, the panic modelled as `none`. -/
def Template.fromStr (s : String) : Option Template :=
  match Template.parse s with
  | .ok t => some t
  | .error _ => Option.none

/-- Modelled from the spec: the Trigger Policy Evaluator's decision — reuse a
historical record or execute afresh (spec §4.5). The concrete evaluator is
not under `src/`. -/
inductive TriggerDecision where
  | execute
  | reuse (record : RequestRecordM)
deriving DecidableEq, Repr

/-- Modelled from the spec: the Trigger Policy Evaluator (spec §4.5), given
the most recent record for the (profile, recipe id) key and the current
time. The concrete evaluator is not under `src/`. -/
def evaluateTrigger (policy : TriggerPolicy) (latest : Option RequestRecordM)
    (now : Nat) : Except TriggerError TriggerDecision :=
  match policy with
  | .always => .ok .execute
  | .never =>
    match latest with
    | some record => .ok (.reuse record)
    | Option.none => .error .NoHistory
  | .noHistory =>
    match latest with
    | some record => .ok (.reuse record)
    | Option.none => .ok .execute
  | .expire duration =>
    match latest with
    | some record =>
      if now - record.start_time < duration then .ok (.reuse record)
      else .ok .execute
    | Option.none => .ok .execute

/-- Modelled from the spec: extraction of the requested `section` from a
response — status, a header, or body, applied before the selector (spec §3,
§4.4). A missing header is a selector-stage mismatch. -/
def extractSection (sec : RequestSection) (response : ResponseM) : Except ChainError String :=
  match sec with
  | .body => .ok response.body
  | .header name =>
    match response.headers.lookup name with
    | some v => .ok v
    | Option.none => .error .SelectorError
  | .status => .ok (toString response.status)

/-- Modelled from the spec: the environment one chain resolution runs
against — chain definitions, each recipe's single nested chain reference
(the recursion edge §4.4), the History Store view, the clock, and the
outcomes of the four side-effecting collaborators. The selector grammar is
the spec's open question (§9), so structured extraction is an abstract
function of the selector, content-type hint and raw bytes. -/
structure ChainGraph where
  chains : ChainId → Option Chain
  recipeRef : RecipeId → Option ChainId
  history : RecipeId → Option RequestRecordM
  now : Nat
  httpResponse : RecipeId → ResponseM
  commandOutput : String → List String → Option String
  fileContent : String → Option String
  envVar : String → Option String
  promptValue : Option String
  selectorExtract : String → Option ContentType → String → Option String

/-- Modelled from the spec: selector application — parse the raw output per
the content-type hint and extract the referenced substructure; mismatch
yields `ChainError::SelectorError` (spec §4.3 step 4). -/
def applySelector (g : ChainGraph) (selector : Option String)
    (ct : Option ContentType) (raw : String) : Except ChainError String :=
  match selector with
  | Option.none => .ok raw
  | some sel =>
    match g.selectorExtract sel ct raw with
    | some extracted => .ok extracted
    | Option.none => .error .SelectorError

/-- Modelled from the spec: the trim policy applied to the extracted textual
value (spec §3, §4.3 step 5). -/
def applyTrim (trim : ChainOutputTrim) (s : String) : String :=
  match trim with
  | .none => s
  | .start => s.trimLeft
  | .end' => s.trimRight
  | .both => s.trim

/-- A resolved chain value: the actual bytes plus the redaction tag set from
the chain's sensitivity flag (spec §4.3 step 6: the tag makes downstream
surfaces redact, the bytes are never altered). -/
structure ResolvedValue where
  value : String
  sensitive : Bool
deriving DecidableEq, Repr

/-- Modelled from the spec: steps 4-6 of the Chain Resolver pipeline
(selector, trim, sensitivity tagging) applied to the dispatched raw bytes
(spec §4.3). -/
def finishChain (g : ChainGraph) (chain : Chain) (raw : String) :
    Except ChainError ResolvedValue :=
  match applySelector g chain.selector chain.content_type raw with
  | .error e => .error e
  | .ok extracted =>
    .ok { value := applyTrim chain.trim extracted, sensitive := chain.sensitive }

mutual

/-- Modelled from the spec: the Chain Resolver,
`resolve(chain_id, context) -> Result<Bytes, ChainError>` (spec §4.3). The
concrete resolver is not under `src/`. The shared Recursion Counter is the
explicit `count` state, returned alongside the result. -/
def resolveChain (g : ChainGraph) (maxDepth : Nat) (id : ChainId) (count : Nat) :
    Except ChainError ResolvedValue × Nat :=
  match g.chains id with
  | Option.none => (.error (.NotFound id), count)
  | some chain => resolveChainDef g maxDepth chain count
termination_by (maxDepth + 1 - count, 1)

/-- Modelled from the spec: steps 2-6 of the Chain Resolver for an
already-looked-up chain (spec §4.3): increment the Recursion Counter, fail
with `RecursionLimit` (decrementing first) if it now exceeds the maximum
depth, otherwise dispatch on the source and finish the pipeline, decrementing
on every exit path. -/
def resolveChainDef (g : ChainGraph) (maxDepth : Nat) (chain : Chain) (count : Nat) :
    Except ChainError ResolvedValue × Nat :=
  if h : maxDepth < count + 1 then
    (.error .RecursionLimit, (count + 1) - 1)
  else
    let step := dispatchSource g maxDepth chain.source (count + 1)
    match step.1 with
    | .error e => (.error e, step.2 - 1)
    | .ok raw => (finishChain g chain raw, step.2 - 1)
termination_by (maxDepth + 1 - count, 0)

/-- Modelled from the spec: dispatch to the Source Resolver matching the
chain's source variant (spec §4.4). A `Request` source consults the Trigger
Policy Evaluator; a fresh execution renders the nested recipe (the recursion
edge back into chain resolution), then executes via the HTTP Engine
collaborator; the other four sources are leaves. -/
def dispatchSource (g : ChainGraph) (maxDepth : Nat) (source : ChainSource) (count : Nat) :
    Except ChainError String × Nat :=
  match source with
  | .request recipe trigger sec =>
    match evaluateTrigger trigger (g.history recipe) g.now with
    | .error e => (.error (.Trigger e), count)
    | .ok (.reuse record) => (extractSection sec record.response, count)
    | .ok .execute =>
      match g.recipeRef recipe with
      | Option.none => (extractSection sec (g.httpResponse recipe), count)
      | some nested =>
        let step := resolveChain g maxDepth nested count
        match step.1 with
        | .error e => (.error e, step.2)
        | .ok _ => (extractSection sec (g.httpResponse recipe), step.2)
  | .command prog args =>
    (match g.commandOutput prog args with
     | some out => .ok out
     | Option.none => .error .CommandFailed, count)
  | .file path =>
    (match g.fileContent path with
     | some contents => .ok contents
     | Option.none => .error .Io, count)
  | .prompt label default =>
    (promptChannelResult
      (TestPrompter.prompt { value := g.promptValue } { label := label, default := default }),
     count)
  | .environment variable' =>
    (match g.envVar variable' with
     | some v => .ok v
     | Option.none => .error .EnvUnset, count)
termination_by (maxDepth + 1 - count, 2)

end

/-- Modelled from the spec: the Template Renderer's handling of one chain
key (spec §4.2): a hit in the overrides mapping returns the override value
verbatim without touching the Recursion Guard; otherwise delegate to the
Chain Resolver. -/
def renderKey (overrides : List (String × String)) (g : ChainGraph)
    (maxDepth : Nat) (key : ChainId) (count : Nat) :
    Except ChainError ResolvedValue × Nat :=
  match overrides.lookup key with
  | some v => (.ok { value := v, sensitive := false }, count)
  | Option.none => resolveChain g maxDepth key count

/-- Modelled from the spec: the Request source resolver's trigger handling
(spec §4.4, §4.5), with the nested render elided: the `Bool` records whether
the HTTP Engine collaborator was invoked. -/
def resolveRequestSource (trigger : TriggerPolicy) (latest : Option RequestRecordM)
    (now : Nat) (engine : Unit → ResponseM) (sec : RequestSection) :
    Except ChainError String × Bool :=
  match evaluateTrigger trigger latest now with
  | .error e => (.error (.Trigger e), false)
  | .ok (.reuse record) => (extractSection sec record.response, false)
  | .ok .execute => (extractSection sec (engine ()), true)

/-- A chain whose source is an unset environment variable: its resolution
fails with `EnvUnset`. -/
def envMissingChain : Chain :=
  { Chain.factory with source := .environment "MISSING" }

/-- A chain whose source is an environment variable that is set. -/
def envSetChain : Chain :=
  { Chain.factory with source := .environment "HOST" }

/-- A concrete resolution environment in which every side-effecting source
fails: the only chain is `envMissingChain` under id "chain1" and no
environment variable is set. -/
def envFailGraph : ChainGraph :=
  { chains := fun i => if i = "chain1" then some envMissingChain else Option.none
    recipeRef := fun _ => Option.none
    history := fun _ => Option.none
    now := 0
    httpResponse := fun _ => ResponseM.factory
    commandOutput := fun _ _ => Option.none
    fileContent := fun _ => Option.none
    envVar := fun _ => Option.none
    promptValue := Option.none
    selectorExtract := fun _ _ _ => Option.none }

/-- A concrete resolution environment in which the environment variable
"HOST" is set to "val". -/
def envOkGraph : ChainGraph :=
  { envFailGraph with
    chains := fun i => if i = "chain1" then some envSetChain else Option.none
    envVar := fun v => if v = "HOST" then some "val" else Option.none }

/-- A flat two-folder tree in which the recipe id "r1" appears under both
folders. -/
def dupTree : List (RecipeId × RecipeNode) :=
  [("folder1", .folder [("r1", .recipe Recipe.factory)]),
   ("folder2", .folder [("r1", .recipe Recipe.factory)])]

/-!  Theorems settling the claims.  -/

/-- Helper: `hasDuplicate` decides (the negation of) `List.Nodup`. -/
theorem hasDuplicate_eq_false_iff (l : List RecipeId) :
    hasDuplicate l = false ↔ l.Nodup := by
  induction l with
  | nil => simp [hasDuplicate]
  | cons a rest ih =>
    simp [hasDuplicate, ih, List.nodup_cons, List.elem_iff]

/-- C3: for every prompt it receives, the non-interactive `TestPrompter`
responds immediately on the prompt's response channel with its preconfigured
value when one is set, and otherwise responds with the prompt's default value
when one is present. -/
theorem testPrompter_responds :
    ∀ (p : TestPrompter) (pr : PromptM),
      (∀ v, p.value = some v → p.prompt pr = [v]) ∧
      (p.value = Option.none → ∀ d, pr.default = some d → p.prompt pr = [d]) := by
  intro p pr
  constructor
  · intro v hv
    simp [TestPrompter.prompt, hv]
  · intro hv d hd
    simp [TestPrompter.prompt, hv, hd]

/-- Witness for C3 at concrete prompters and prompts. -/
theorem testPrompter_responds_witness :
    ((TestPrompter.mk (some "preconf")).value = some "preconf" ∧
      (TestPrompter.mk (some "preconf")).prompt { label := "lbl", default := some "dflt" }
        = ["preconf"]) ∧
    ((TestPrompter.mk Option.none).value = Option.none ∧
      (PromptM.mk "lbl" (some "dflt")).default = some "dflt" ∧
      (TestPrompter.mk Option.none).prompt { label := "lbl", default := some "dflt" }
        = ["dflt"]) :=
  ⟨⟨rfl, (testPrompter_responds (TestPrompter.mk (some "preconf"))
      { label := "lbl", default := some "dflt" }).1 "preconf" rfl⟩,
   ⟨rfl, rfl, (testPrompter_responds (TestPrompter.mk Option.none)
      { label := "lbl", default := some "dflt" }).2 rfl "dflt" rfl⟩⟩

/-- C4: at most one response is ever sent on the prompt's single-shot
channel; with no preconfigured value and no default, no response is sent,
which the non-interactive render context surfaces as
`ChainError::PromptUnavailable`. -/
theorem testPrompter_single_response :
    ∀ (p : TestPrompter) (pr : PromptM),
      (p.prompt pr).length ≤ 1 ∧
      (p.value = Option.none → pr.default = Option.none →
        p.prompt pr = [] ∧
        promptChannelResult (p.prompt pr) = .error .PromptUnavailable) := by
  intro p pr
  constructor
  · cases hv : p.value with
    | none =>
      cases hd : pr.default with
      | none => simp [TestPrompter.prompt, hv, hd]
      | some d => simp [TestPrompter.prompt, hv, hd]
    | some v => simp [TestPrompter.prompt, hv]
  · intro hv hd
    simp [TestPrompter.prompt, hv, hd, promptChannelResult]

/-- Witness for C4 at the empty prompter and a default-free prompt. -/
theorem testPrompter_single_response_witness :
    (TestPrompter.mk Option.none).value = Option.none ∧
    (PromptM.mk "lbl" Option.none).default = Option.none ∧
    (TestPrompter.mk Option.none).prompt (PromptM.mk "lbl" Option.none) = [] ∧
    promptChannelResult
      ((TestPrompter.mk Option.none).prompt (PromptM.mk "lbl" Option.none))
      = .error .PromptUnavailable := by
  refine ⟨rfl, rfl, ?_, ?_⟩
  · exact ((testPrompter_single_response (TestPrompter.mk Option.none)
      (PromptM.mk "lbl" Option.none)).2 rfl rfl).1
  · exact ((testPrompter_single_response (TestPrompter.mk Option.none)
      (PromptM.mk "lbl" Option.none)).2 rfl rfl).2

/-- C5: under the `Never` trigger policy with no prior record for the key,
resolution fails with `TriggerError::NoHistory` and the HTTP Engine is never
invoked (the invocation flag stays `false`). -/
theorem never_trigger_no_history :
    ∀ (now : Nat) (engine : Unit → ResponseM) (sec : RequestSection),
      evaluateTrigger .never Option.none now = .error .NoHistory ∧
      resolveRequestSource .never Option.none now engine sec
        = (.error (.Trigger .NoHistory), false) := by
  intro now engine sec
  exact ⟨rfl, rfl⟩

/-- C9: every `RequestRecord` produced by the test factory has the id of its
contained request, and its start time is not later than its end time (the
two successive `Utc::now()` readings `t1 ≤ t2`). -/
theorem requestRecord_factory_invariants :
    ∀ (id t1 t2 : Nat), t1 ≤ t2 →
      (RequestRecordM.factory id t1 t2).id = (RequestRecordM.factory id t1 t2).request.id ∧
      (RequestRecordM.factory id t1 t2).start_time
        ≤ (RequestRecordM.factory id t1 t2).end_time := by
  intro id t1 t2 h
  exact ⟨rfl, h⟩

/-- Witness for C9 at a concrete id and clock readings. -/
theorem requestRecord_factory_witness :
    (3 : Nat) ≤ 5 ∧
    (RequestRecordM.factory 7 3 5).id = (RequestRecordM.factory 7 3 5).request.id ∧
    (RequestRecordM.factory 7 3 5).start_time ≤ (RequestRecordM.factory 7 3 5).end_time :=
  ⟨by decide, requestRecord_factory_invariants 7 3 5 (by decide)⟩

/-- C10: after `MessageQueue::clear` returns no previously sent message
remains, and a subsequent `pop_now` with no new messages sent panics with
"Message queue empty". -/
theorem messageQueue_clear_then_pop :
    ∀ (α : Type) (q : List α),
      MessageQueue.clear q = [] ∧
      MessageQueue.pop_now (MessageQueue.clear q) = .error "Message queue empty" := by
  intro α q
  have h : MessageQueue.clear q = ([] : List α) := by
    induction q with
    | nil => rfl
    | cons m rest ih => simpa [MessageQueue.clear] using ih
  refine ⟨h, ?_⟩
  rw [h]
  rfl

/-- C1: constructing a `RecipeTree` from an id-to-recipe mapping fails at
construction time whenever any recipe id is duplicated anywhere in the
resulting tree (including across two different folders); on success the tree
holds exactly the given entries, so no duplicate is ever silently overwritten
or dropped. -/
theorem recipeTree_new_duplicates_fail :
    (∀ tree, ¬ (treeIds tree).Nodup → RecipeTree.new tree = .error "Duplicate recipe ID") ∧
    (∀ tree t, RecipeTree.new tree = .ok t → t.tree = tree ∧ (treeIds tree).Nodup) ∧
    (∀ (flat : List (RecipeId × Recipe)),
      ¬ (treeIds (flat.map fun p => (p.1, RecipeNode.recipe p.2))).Nodup →
        recipeTreeFrom flat = Option.none) := by
  have hnew : ∀ tree, ¬ (treeIds tree).Nodup →
      RecipeTree.new tree = .error "Duplicate recipe ID" := by
    intro tree h
    have hd : hasDuplicate (treeIds tree) = true := by
      cases hd : hasDuplicate (treeIds tree) with
      | false => exact absurd ((hasDuplicate_eq_false_iff _).mp hd) h
      | true => rfl
    simp [RecipeTree.new, hd]
  refine ⟨hnew, ?_, ?_⟩
  · intro tree t h
    by_cases hd : hasDuplicate (treeIds tree) = true
    · simp [RecipeTree.new, hd] at h
    · rw [Bool.not_eq_true] at hd
      refine ⟨?_, (hasDuplicate_eq_false_iff _).mp hd⟩
      simp [RecipeTree.new, hd] at h
      rw [← h]
  · intro flat h
    simp [recipeTreeFrom, hnew _ h]

/-- Witness for C1 at a tree duplicating the id "r1" across two folders. -/
theorem recipeTree_new_duplicates_witness :
    ¬ (treeIds dupTree).Nodup ∧
    RecipeTree.new dupTree = .error "Duplicate recipe ID" :=
  ⟨by decide, recipeTree_new_duplicates_fail.1 dupTree (by decide)⟩

/-- C7: template parsing is total and deterministic — for every input string
`parse` returns either a `Template` or a `ParseError`, and two parses of the
same input yield identical results. -/
theorem template_parse_total_deterministic :
    ∀ (s : String),
      ((∃ t, Template.parse s = .ok t) ∨ (∃ e, Template.parse s = .error e)) ∧
      (∀ s2, s = s2 → Template.parse s = Template.parse s2) := by
  intro s
  constructor
  · cases h : Template.parse s with
    | ok t => exact .inl ⟨t, rfl⟩
    | error e => exact .inr ⟨e, rfl⟩
  · intro s2 h
    rw [h]

/-- Witness for C7 at a concrete template string. -/
theorem template_parse_witness :
    ("ab" = "ab") ∧
    Template.parse "ab" = Template.parse "ab" ∧
    Template.parse "ab" = .ok { segments := [.literal ['a', 'b']] } :=
  ⟨rfl, (template_parse_total_deterministic "ab").2 "ab" rfl, rfl⟩

/-- C6: a chain key present in the overrides mapping renders to the override
value verbatim, for every resolution environment and counter state alike —
so no source resolver is consulted, the Recursion Guard is untouched, and
the render succeeds even when the key's underlying chain source would
fail. -/
theorem renderKey_override_bypass :
    ∀ (overrides : List (String × String)) (g : ChainGraph) (m c : Nat)
      (key : ChainId) (v : String),
      overrides.lookup key = some v →
      renderKey overrides g m key c = (.ok { value := v, sensitive := false }, c) := by
  intro ov g m c key v h
  simp [renderKey, h]

/-- Witness for C6: the override for "chain1" wins even though the chain's
source is an unset environment variable whose direct resolution fails with
`EnvUnset`. -/
theorem renderKey_override_witness :
    ([("chain1", "ov")] : List (String × String)).lookup "chain1" = some "ov" ∧
    renderKey [("chain1", "ov")] envFailGraph 8 "chain1" 0
      = (.ok { value := "ov", sensitive := false }, 0) ∧
    (resolveChain envFailGraph 8 "chain1" 0).1 = .error .EnvUnset := by
  refine ⟨rfl, renderKey_override_bypass [("chain1", "ov")] envFailGraph 8 0 "chain1" "ov" rfl, ?_⟩
  rw [resolveChain]
  simp [envFailGraph, envMissingChain, Chain.factory]
  rw [resolveChainDef]
  simp [dispatchSource, envFailGraph]

/-- C8: the resolved bytes of a chain are identical whatever its sensitivity
flag — flipping `sensitive` changes neither the dispatched raw bytes, the
selector/trim pipeline, nor the counter, only the redaction tag on the
result, which equals the chain's flag. -/
theorem sensitive_flag_no_effect :
    ∀ (g : ChainGraph) (m c : Nat) (chain : Chain) (b1 b2 : Bool),
      ((resolveChainDef g m { chain with sensitive := b1 } c).1.map ResolvedValue.value
        = (resolveChainDef g m { chain with sensitive := b2 } c).1.map ResolvedValue.value) ∧
      ((resolveChainDef g m { chain with sensitive := b1 } c).2
        = (resolveChainDef g m { chain with sensitive := b2 } c).2) ∧
      (∀ r, (resolveChainDef g m chain c).1 = .ok r → r.sensitive = chain.sensitive) := by
  intro g m c chain b1 b2
  have hpipe : ∀ b : Bool,
      resolveChainDef g m { chain with sensitive := b } c =
        if m < c + 1 then (.error .RecursionLimit, (c + 1) - 1)
        else
          match (dispatchSource g m chain.source (c + 1)).1 with
          | .error e => (.error e, (dispatchSource g m chain.source (c + 1)).2 - 1)
          | .ok raw =>
            (finishChain g { chain with sensitive := b } raw,
              (dispatchSource g m chain.source (c + 1)).2 - 1) := by
    intro b
    rw [resolveChainDef]
    dsimp only
    rw [dite_eq_ite]
  have hfin : ∀ (b : Bool) (raw : String),
      (finishChain g { chain with sensitive := b } raw).map ResolvedValue.value
        = (applySelector g chain.selector chain.content_type raw).map (applyTrim chain.trim) := by
    intro b raw
    rw [finishChain]
    cases h2 : applySelector g chain.selector chain.content_type raw with
    | error e => rfl
    | ok extracted => rfl
  refine ⟨?_, ?_, ?_⟩
  · rw [hpipe b1, hpipe b2]
    by_cases hm : m < c + 1
    · simp [hm]
    · simp only [hm, if_false]
      cases h1 : (dispatchSource g m chain.source (c + 1)).1 with
      | error e => rfl
      | ok raw => simpa using (hfin b1 raw).trans (hfin b2 raw).symm
  · rw [hpipe b1, hpipe b2]
    by_cases hm : m < c + 1
    · simp [hm]
    · simp only [hm, if_false]
      cases h1 : (dispatchSource g m chain.source (c + 1)).1 with
      | error e => rfl
      | ok raw => rfl
  · intro r hr
    rw [resolveChainDef] at hr
    by_cases hm : m < c + 1
    · simp [hm] at hr
    · simp only [hm, dif_neg, not_false_iff] at hr
      cases h1 : (dispatchSource g m chain.source (c + 1)).1 with
      | error e => simp [h1] at hr
      | ok raw =>
        simp only [h1] at hr
        rw [finishChain] at hr
        cases h2 : applySelector g chain.selector chain.content_type raw with
        | error e => simp [h2] at hr
        | ok extracted =>
          simp [h2] at hr
          rw [← hr]

/-- Witness for C8: a successfully resolving chain at a concrete
environment; the sensitive and non-sensitive variants yield the same bytes
and the result carries the chain's (false) flag. -/
theorem sensitive_flag_witness :
    (resolveChainDef envOkGraph 4 envSetChain 0).1
      = .ok { value := "val", sensitive := false } ∧
    ({ value := "val", sensitive := false } : ResolvedValue).sensitive
      = envSetChain.sensitive ∧
    ((resolveChainDef envOkGraph 4 { envSetChain with sensitive := true } 0).1.map
        ResolvedValue.value
      = (resolveChainDef envOkGraph 4 { envSetChain with sensitive := false } 0).1.map
        ResolvedValue.value) := by
  have h : (resolveChainDef envOkGraph 4 envSetChain 0).1
      = .ok { value := "val", sensitive := false } := by
    rw [resolveChainDef]
    simp [dispatchSource, envOkGraph, envFailGraph, envSetChain, Chain.factory,
      finishChain, applySelector, applyTrim, ChainOutputTrim.default]
  exact ⟨h,
    (sensitive_flag_no_effect envOkGraph 4 0 envSetChain true false).2.2
      { value := "val", sensitive := false } h,
    (sensitive_flag_no_effect envOkGraph 4 0 envSetChain true false).1⟩

/-- Helper: the shared Recursion Counter is restored on every exit path —
each of the three mutually recursive resolution functions returns exactly
the counter state it was entered with. Strong induction on the remaining
depth budget. -/
theorem counter_restored_aux :
    ∀ (k : Nat) (g : ChainGraph) (m c : Nat), m + 1 - c ≤ k →
      (∀ chain, (resolveChainDef g m chain c).2 = c) ∧
      (∀ id, (resolveChain g m id c).2 = c) ∧
      (∀ source, (dispatchSource g m source c).2 = c) := by
  intro k
  induction k using Nat.strong_induction_on with
  | _ k ih =>
    intro g m c hk
    have hdef : ∀ chain, (resolveChainDef g m chain c).2 = c := by
      intro chain
      rw [resolveChainDef]
      by_cases hm : m < c + 1
      · simp [hm]
      · have hnext : (dispatchSource g m chain.source (c + 1)).2 = c + 1 :=
          (ih (m + 1 - (c + 1)) (by omega) g m (c + 1) (le_refl _)).2.2 chain.source
        rw [dif_neg hm]
        dsimp only
        cases h1 : (dispatchSource g m chain.source (c + 1)).1 <;> simp [h1, hnext]
    have hres : ∀ id, (resolveChain g m id c).2 = c := by
      intro id
      rw [resolveChain]
      cases hch : g.chains id with
      | none => simp [hch]
      | some chain => simp [hch, hdef chain]
    refine ⟨hdef, hres, ?_⟩
    intro source
    cases source with
    | request recipe trigger sec =>
      rw [dispatchSource]
      dsimp only
      cases het : evaluateTrigger trigger (g.history recipe) g.now with
      | error e => simp [het]
      | ok dec =>
        cases dec with
        | execute =>
          simp only [het]
          cases href : g.recipeRef recipe with
          | none => simp [href]
          | some nested =>
            cases h1 : (resolveChain g m nested c).1 <;>
              simp [href, h1, hres nested]
        | reuse record => simp [het]
    | command prog args => rw [dispatchSource]
    | file path => rw [dispatchSource]
    | prompt label default => rw [dispatchSource]
    | environment variable' => rw [dispatchSource]

/-- C2: a freshly constructed `TemplateContext` starts the shared Recursion
Counter at zero; every chain resolution restores the counter on every exit
path (success, error, or the limit itself); and when the increment would
exceed the maximum depth the resolution fails with
`ChainError::RecursionLimit`, the counter again restored to its entry
value. -/
theorem recursion_counter_discipline :
    TemplateContext.factory.recursion_count = 0 ∧
    (∀ g m id c, (resolveChain g m id c).2 = c) ∧
    (∀ g m id c chain, g.chains id = some chain → m < c + 1 →
      resolveChain g m id c = (.error .RecursionLimit, c)) := by
  refine ⟨rfl, ?_, ?_⟩
  · intro g m id c
    exact (counter_restored_aux (m + 1 - c) g m c (le_refl _)).2.1 id
  · intro g m id c chain hc hm
    rw [resolveChain]
    simp only [hc]
    rw [resolveChainDef]
    simp [hm]

/-- Witness for C2 at a concrete environment: with maximum depth 0 the very
first resolution trips the limit, and the counter comes back to 0. -/
theorem recursion_counter_witness :
    envFailGraph.chains "chain1" = some envMissingChain ∧
    (0 : Nat) < 0 + 1 ∧
    resolveChain envFailGraph 0 "chain1" 0 = (.error .RecursionLimit, 0) := by
  refine ⟨rfl, by decide, ?_⟩
  exact recursion_counter_discipline.2.2 envFailGraph 0 "chain1" 0 envMissingChain rfl
    (by decide)

end Slumber
